import Mathlib

set_option maxHeartbeats 1000000

/- Verification of the container lifecycle engine in
   src/slave/containerizer/mesos/containerizer.cpp.

   The definitions below are a shallow embedding of the functions of
   `MesosContainerizerProcess`: the isolator pipeline (`prepare`,
   `cleanupIsolators`), the destroy chain (`destroy`, `_destroy`,
   `__destroy`, ..., `______destroy`), the launch-stage resume checks,
   the `reap` status recovery, the `limited` callback and the
   `status` request serialization. -/

/-- Container lifecycle states (`MesosContainerizerProcess::State`). -/
inductive CState where
  | PROVISIONING
  | PREPARING
  | ISOLATING
  | FETCHING
  | RUNNING
  | DESTROYING
  deriving DecidableEq, Repr

/-- An isolator of the configured pipeline. `name` identifies it,
`supportsNesting` mirrors `Isolator::supportsNesting()`, and
`prepareOk` / `cleanupOk` record whether its `prepare` / `cleanup`
calls for the container under consideration succeed. -/
structure Isolator where
  name : Nat
  supportsNesting : Bool
  prepareOk : Bool
  cleanupOk : Bool
  deriving DecidableEq, Repr

/-- The isolators that are applied to a container: for a nested
container, isolators that do not support nesting are skipped
(the `if (containerId.has_parent() && !isolator->supportsNesting()) continue;`
pattern repeated in `prepare`, `isolate`, `status` and `cleanupIsolators`). -/
def applicableIsolators (nested : Bool) (isolators : List Isolator) : List Isolator :=
  isolators.filter (fun i => !nested || i.supportsNesting)

/-- The declared order in which `prepare` chains the applicable
isolators (containerizer.cpp:1126-1141). -/
def declaredOrder (nested : Bool) (isolators : List Isolator) : List Nat :=
  (applicableIsolators nested isolators).map Isolator.name

/-- The chain of `isolator->prepare` invocations built in
`MesosContainerizerProcess::prepare` (containerizer.cpp:1123-1141):
each isolator's `prepare` is chained with `.then` onto the previous
one, so once one fails no later continuation runs, and hence no
later `prepare` is invoked. Returns the names of the isolators whose
`prepare` is actually invoked, in invocation order. -/
def prepareChain : List Isolator → List Nat
  | [] => []
  | i :: rest => i.name :: (if i.prepareOk then prepareChain rest else [])

/-- Names of isolators whose `prepare` is invoked for the container,
in order (`MesosContainerizerProcess::prepare`). -/
def prepareCalls (nested : Bool) (isolators : List Isolator) : List Nat :=
  prepareChain (applicableIsolators nested isolators)

/-- Names of isolators whose `cleanup` is invoked by
`MesosContainerizerProcess::cleanupIsolators` (containerizer.cpp:2359-2393),
in invocation order: the loop walks `adaptor::reverse(isolators)`,
skips non-nesting isolators for nested containers, and chains every
remaining isolator's `cleanup` with `await`, accumulating failures
without short-circuiting, so every one is invoked. -/
def cleanupCalls (nested : Bool) (isolators : List Isolator) : List Nat :=
  (isolators.reverse.filter (fun i => !nested || i.supportsNesting)).map Isolator.name

/-- The per-isolator results accumulated by `cleanupIsolators`
(`cleanups.push_back(cleanup)`), one entry per invoked isolator. -/
def cleanupResults (nested : Bool) (isolators : List Isolator) : List Bool :=
  (isolators.reverse.filter (fun i => !nested || i.supportsNesting)).map Isolator.cleanupOk

/-- The container state a destroy found the container in
(`previousState` in `MesosContainerizerProcess::destroy`). -/
inductive PrevState where
  | provisioning
  | preparing
  | isolating
  | fetching
  | running
  deriving DecidableEq, Repr

/-- Observable events of a destroy sequence, tagged with the
ContainerId (as a Nat) they concern. -/
inductive DEvent where
  | awaitProvisioning (id : Nat)
  | awaitPrepare (id : Nat)
  | awaitIsolation (id : Nat)
  | fetcherKill (id : Nat)
  | launcherDestroy (id : Nat)
  | awaitStatus (id : Nat)
  | isolatorCleanup (id : Nat) (iso : Nat)
  | provisionerDestroy (id : Nat)
  | terminationFailed (id : Nat)
  | metricIncremented (id : Nat)
  | terminationSet (id : Nat)
  | registryErased (id : Nat)
  deriving DecidableEq, Repr

/-- The ContainerId an event concerns. -/
def DEvent.eid : DEvent → Nat
  | .awaitProvisioning id => id
  | .awaitPrepare id => id
  | .awaitIsolation id => id
  | .fetcherKill id => id
  | .launcherDestroy id => id
  | .awaitStatus id => id
  | .isolatorCleanup id _ => id
  | .provisionerDestroy id => id
  | .terminationFailed id => id
  | .metricIncremented id => id
  | .terminationSet id => id
  | .registryErased id => id

/-- Per-container data relevant to its destroy: its id, the state it
was in when destroy flipped it to DESTROYING, whether it is nested,
and whether `launcher->destroy` and `provisioner->destroy` succeed
for it. -/
structure NodeData where
  id : Nat
  prev : PrevState
  nested : Bool
  launcherOk : Bool
  provisionerOk : Bool
  deriving DecidableEq, Repr

/-- A container together with its transitive children (the
`container->children` sets of the Registry form a tree). -/
inductive CTree where
  | node : NodeData → List CTree → CTree
  deriving Repr

/-- `MesosContainerizerProcess::______destroy` (containerizer.cpp:2145-2248):
on `provisioner->destroy` failure, fail the termination, bump the
destroy-error metric and stop (the container is never erased from
`containers_`); on success, set the termination and erase the
container. Returns the emitted events and whether the destroy
succeeded. -/
def provisionerPhase (d : NodeData) : List DEvent × Bool :=
  if !d.provisionerOk then
    ([.provisionerDestroy d.id, .terminationFailed d.id, .metricIncremented d.id], false)
  else
    ([.provisionerDestroy d.id, .terminationSet d.id, .registryErased d.id], true)

/-- `____destroy` and `_____destroy` (containerizer.cpp:2099-2142):
run `cleanupIsolators` (every applicable isolator's `cleanup`, in
reverse declared order, all attempted); if any cleanup failed, fail
the termination, bump the metric and stop; otherwise continue with
`provisioner->destroy`. -/
def cleanupPhase (isolators : List Isolator) (d : NodeData) : List DEvent × Bool :=
  let evs := (cleanupCalls d.nested isolators).map (DEvent.isolatorCleanup d.id)
  if (cleanupResults d.nested isolators).any (fun ok => !ok) then
    (evs ++ [.terminationFailed d.id, .metricIncremented d.id], false)
  else
    (evs ++ (provisionerPhase d).1, (provisionerPhase d).2)

/-- `__destroy` and `___destroy` (containerizer.cpp:2055-2096):
`launcher->destroy`; on failure fail the termination, bump the metric
and stop (no isolator cleanup, no provisioner destroy); on success
await the reaped `status`, then run the cleanup phase. -/
def launcherPhase (isolators : List Isolator) (d : NodeData) : List DEvent × Bool :=
  if !d.launcherOk then
    ([.launcherDestroy d.id, .terminationFailed d.id, .metricIncremented d.id], false)
  else
    ([.launcherDestroy d.id, .awaitStatus d.id] ++ (cleanupPhase isolators d).1,
     (cleanupPhase isolators d).2)

/-- The stage-dependent unwind of `_destroy` (containerizer.cpp:1995-2052)
once all child destroys have completed successfully:
 * PROVISIONING: await `provisioning`, then jump directly to
   `_____destroy` with an empty cleanup list (no launcher destroy, no
   isolator cleanup), i.e. straight to `provisioner->destroy`;
 * PREPARING: await `launchInfos` (and `status` if forked), then
   `____destroy` (isolator cleanup, skipping `launcher->destroy`);
 * ISOLATING: await `isolation`, then `__destroy`;
 * FETCHING: `fetcher->kill`, then `__destroy`;
 * RUNNING: `__destroy`. -/
def parentUnwind (isolators : List Isolator) (d : NodeData) : List DEvent × Bool :=
  match d.prev with
  | .provisioning =>
      ([.awaitProvisioning d.id] ++ (provisionerPhase d).1, (provisionerPhase d).2)
  | .preparing =>
      ([.awaitPrepare d.id] ++ (cleanupPhase isolators d).1, (cleanupPhase isolators d).2)
  | .isolating =>
      ([.awaitIsolation d.id] ++ (launcherPhase isolators d).1, (launcherPhase isolators d).2)
  | .fetching =>
      ([.fetcherKill d.id] ++ (launcherPhase isolators d).1, (launcherPhase isolators d).2)
  | .running => launcherPhase isolators d

/-- The continuation of `_destroy` after the child destroys have
settled (containerizer.cpp:1977-1993 and onwards): if any child
destroy failed, fail the parent's termination with the aggregate
message, bump the destroy-error metric and stop before any teardown
stage; otherwise run the stage-dependent unwind. -/
def destroyTail (isolators : List Isolator) (d : NodeData)
    (rs : List (List DEvent × Bool)) : List DEvent × Bool :=
  if rs.any (fun r => !r.2) then
    ([.terminationFailed d.id, .metricIncremented d.id], false)
  else
    parentUnwind isolators d

mutual

/-- `MesosContainerizerProcess::destroy` and `_destroy`
(containerizer.cpp:1909-1993) for a container already found live and
not yet DESTROYING: recursively destroy every child, `await` all the
child destroys, and only then (`await(destroys).then(... _destroy ...)`)
run the parent's own part (`destroyTail`). The trace lists the events
in the order the actor performs them (sibling destroys are serialized
in child-list order; the claims proved below do not depend on the
relative order of siblings). -/
def destroyTrace (isolators : List Isolator) : CTree → List DEvent × Bool
  | .node d cs =>
    let rs := destroyTraceList isolators cs
    ((rs.map Prod.fst).flatten ++ (destroyTail isolators d rs).1,
     (destroyTail isolators d rs).2)

/-- Destroys of the children, in child-list order. -/
def destroyTraceList (isolators : List Isolator) : List CTree → List (List DEvent × Bool)
  | [] => []
  | t :: ts => destroyTrace isolators t :: destroyTraceList isolators ts

end

mutual

/-- All ContainerIds appearing in a container tree. -/
def treeIds : CTree → List Nat
  | .node d cs => d.id :: (treeIdsList cs).flatten

/-- ContainerIds of a list of container trees. -/
def treeIdsList : List CTree → List (List Nat)
  | [] => []
  | t :: ts => treeIds t :: treeIdsList ts

end

/-- What `destroy` returns to its caller. -/
inductive DestroyRet where
  | returnedFalse
  | terminationThenTrue
  deriving DecidableEq, Repr

/-- The externally visible outcome of the entry of `destroy`:
the returned value, whether the unknown-container warning was
logged, the container's state afterwards (`none` when the id is not
in the Registry), and whether a (new) teardown was started. -/
structure DestroyEntryOut where
  ret : DestroyRet
  warnedUnknown : Bool
  stateAfter : Option CState
  teardownStarted : Bool
  deriving DecidableEq, Repr

/-- The entry of `MesosContainerizerProcess::destroy`
(containerizer.cpp:1909-1963), as a function of the container's
Registry entry (`none` when `containers_` does not contain the id):
 * unknown id: log a warning and return `false`, touching nothing;
 * state already DESTROYING: return the pending `termination` future
   mapped to `true`, without restarting the teardown;
 * otherwise: flip the state to DESTROYING, start the teardown
   (child destroys then `_destroy`), and return the `termination`
   future mapped to `true`. -/
def destroyEntry (reg : Option CState) : DestroyEntryOut :=
  match reg with
  | none => ⟨.returnedFalse, true, none, false⟩
  | some s =>
    if s = .DESTROYING then
      ⟨.terminationThenTrue, false, some s, false⟩
    else
      ⟨.terminationThenTrue, false, some .DESTROYING, true⟩

/-- Error message of a resume check when the container has vanished
from the Registry: `"Container destroyed during <stage>"`. -/
def destroyedDuring (stage : String) : String :=
  "Container destroyed during " ++ stage

/-- Error message of a resume check when the container is in
DESTROYING state: `"Container is being destroyed during <stage>"`. -/
def beingDestroyedDuring (stage : String) : String :=
  "Container is being destroyed during " ++ stage

/-- The resume of `MesosContainerizerProcess::prepare`
(containerizer.cpp:1081-1096), run after the provisioning suspension
point: re-check Registry membership and the DESTROYING flag, failing
with a reason naming the previous stage ("provisioning"); on success
the body transitions the container to PREPARING. -/
def prepareResume (reg : Option CState) : Except String CState :=
  match reg with
  | none => .error (destroyedDuring "provisioning")
  | some s =>
    if s = .DESTROYING then .error (beingDestroyedDuring "provisioning")
    else .ok .PREPARING

/-- The resume of `MesosContainerizerProcess::_launch`
(containerizer.cpp:1196-1204), run after the serial isolator
`prepare` chain: same re-checks, naming "preparing"; the body leaves
the state at PREPARING (the fork has not happened yet). -/
def launchResume (reg : Option CState) : Except String CState :=
  match reg with
  | none => .error (destroyedDuring "preparing")
  | some s =>
    if s = .DESTROYING then .error (beingDestroyedDuring "preparing")
    else .ok .PREPARING

/-- The re-check inside `_launch`'s continuation after
`logger->prepare` (containerizer.cpp:1352-1358): same re-checks,
naming "preparing"; the body then forks the container. -/
def loggerResume (reg : Option CState) : Except String CState :=
  match reg with
  | none => .error (destroyedDuring "preparing")
  | some s =>
    if s = .DESTROYING then .error (beingDestroyedDuring "preparing")
    else .ok .PREPARING

/-- The resume of `MesosContainerizerProcess::isolate`
(containerizer.cpp:1539-1549), run after the fork: same re-checks,
naming "preparing"; on success the body transitions to ISOLATING. -/
def isolateResume (reg : Option CState) : Except String CState :=
  match reg with
  | none => .error (destroyedDuring "preparing")
  | some s =>
    if s = .DESTROYING then .error (beingDestroyedDuring "preparing")
    else .ok .ISOLATING

/-- The resume of `MesosContainerizerProcess::fetch`
(containerizer.cpp:1153-1165), run after the parallel isolation
step: same re-checks, naming "isolating"; on success the body
transitions to FETCHING. -/
def fetchResume (reg : Option CState) : Except String CState :=
  match reg with
  | none => .error (destroyedDuring "isolating")
  | some s =>
    if s = .DESTROYING then .error (beingDestroyedDuring "isolating")
    else .ok .FETCHING

/-- The resume of `MesosContainerizerProcess::exec`
(containerizer.cpp:1593-1601), run after the fetch: same re-checks,
naming "fetching"; on success the body signals the child and
transitions to RUNNING. -/
def execResume (reg : Option CState) : Except String CState :=
  match reg with
  | none => .error (destroyedDuring "fetching")
  | some s =>
    if s = .DESTROYING then .error (beingDestroyedDuring "fetching")
    else .ok .RUNNING

/-- The resume checks of the launch pipeline, each paired with the
name of the stage its failure messages cite. -/
def launchResumeChecks : List ((Option CState → Except String CState) × String) :=
  [(prepareResume, "provisioning"),
   (launchResume, "preparing"),
   (loggerResume, "preparing"),
   (isolateResume, "preparing"),
   (fetchResume, "isolating"),
   (execResume, "fetching")]

/-- The state of a libprocess future, as observed by the engine. -/
inductive FutureVal (α : Type) where
  | ready (a : α)
  | failed (msg : String)
  | pending
  deriving DecidableEq, Repr

/-- A resource limitation reported by an isolator
(`mesos::slave::ContainerLimitation`): a message and an optional
reason code. -/
structure ContainerLimitation where
  message : String
  reason : Option Nat
  deriving DecidableEq, Repr

/-- Task states relevant to termination composition. -/
inductive TaskState where
  | TASK_FAILED
  deriving DecidableEq, Repr

/-- The `ContainerTermination` protobuf fields the engine sets. -/
structure ContainerTermination where
  status : Option Int
  state : Option TaskState
  message : Option String
  reasons : List Nat
  deriving DecidableEq, Repr

/-- The termination composed by `______destroy`
(containerizer.cpp:2162-2189): the exit status is set iff
`container->status` is present, ready and holds a value; if the
accumulated `limitations` list is non-empty, the task state is set
to TASK_FAILED, the limitation messages are joined with "; ", and
one reason is collected per limitation that has one. -/
def composeTermination (st : Option (FutureVal (Option Int)))
    (lims : List ContainerLimitation) : ContainerTermination :=
  let status : Option Int :=
    match st with
    | some (.ready (some code)) => some code
    | _ => none
  if lims.isEmpty then
    { status := status, state := none, message := none, reasons := [] }
  else
    { status := status
      state := some .TASK_FAILED
      message := some (String.intercalate "; " (lims.map ContainerLimitation.message))
      reasons := lims.filterMap ContainerLimitation.reason }

/-- Modelled from the spec: the per-container FIFO (`sequence` in the
`Container` struct, libprocess `process::Sequence`, which is not
under src/) holds the pending tasks in arrival order; only the head
may run, and it is popped when it completes. A state is the pending
queue plus the list of completed tasks in completion order. -/
structure FifoState where
  queue : List Nat
  completed : List Nat
  deriving DecidableEq, Repr

/-- Modelled from the spec: operations on the per-container FIFO.
`add id` is `sequence.add` as invoked by
`MesosContainerizerProcess::status` (containerizer.cpp:1901-1905)
when a status request for the container arrives; `completeHead` is
the completion of the currently running (= oldest pending) task. -/
inductive FifoOp where
  | add (id : Nat)
  | completeHead
  deriving DecidableEq, Repr

/-- Modelled from the spec: one step of the per-container FIFO. -/
def fifoStep (s : FifoState) (op : FifoOp) : FifoState :=
  match op with
  | .add id => { s with queue := s.queue ++ [id] }
  | .completeHead =>
    match s.queue with
    | [] => s
    | t :: rest => { queue := rest, completed := s.completed ++ [t] }

/-- Modelled from the spec: run the FIFO from a state over a list of
operations. -/
def fifoRun (s : FifoState) (ops : List FifoOp) : FifoState :=
  ops.foldl fifoStep s

/-- The ids of the status requests enqueued by an operation list,
in arrival order. -/
def fifoArrivals (ops : List FifoOp) : List Nat :=
  ops.filterMap (fun op => match op with | .add id => some id | .completeHead => none)

/-- Result of `containerizer::paths::getContainerStatus`: reading the
checkpointed `status` file can error, yield a status, or find the
file missing or empty (`none`). -/
inductive CheckpointedStatus where
  | err (e : String)
  | value (s : Int)
  | absent
  deriving DecidableEq, Repr

/-- POSIX SIGKILL. -/
def SIGKILL : Nat := 9

/-- `W_EXITCODE(ret, sig)` = `(ret << 8) | sig`. -/
def wExitcode (ret sig : Nat) : Int :=
  Int.ofNat (ret * 256 + sig)

/-- The continuation of `MesosContainerizerProcess::reap`
(containerizer.cpp:2260-2293) applied to the OS reap result: if the
container runtime directory does not exist (legacy container), the
OS reap result is forwarded unchanged; otherwise the checkpointed
`status` file is consulted — a read error fails the future, a
checkpointed value is preferred, and a missing or empty file yields
a synthesized `W_EXITCODE(0, SIGKILL)`. -/
def reapResult (runtimeDirExists : Bool) (checkpointed : CheckpointedStatus)
    (osStatus : Option Int) : Except String (Option Int) :=
  if !runtimeDirExists then .ok osStatus
  else
    match checkpointed with
    | .err e => .error ("Failed to get container status: " ++ e)
    | .value s => .ok (some s)
    | .absent => .ok (some (wExitcode 0 SIGKILL))

/-- `ContainerInfo::Type`. -/
inductive CType where
  | MESOS
  | DOCKER
  deriving DecidableEq, Repr

/-- The part of `ContainerInfo` the launch entry inspects. -/
structure ContainerInfo where
  type : CType
  deriving DecidableEq, Repr

/-- The part of `TaskInfo` the launch entry inspects. -/
structure TaskInfo where
  container : Option ContainerInfo
  deriving DecidableEq, Repr

/-- The part of `ExecutorInfo` the launch entry inspects. -/
structure ExecutorInfo where
  container : Option ContainerInfo
  deriving DecidableEq, Repr

/-- Whether an optional `ContainerInfo` is present with a type other
than MESOS (`has_container() && container().type() != ContainerInfo::MESOS`). -/
def nonMesosContainer : Option ContainerInfo → Bool
  | some c => c.type != .MESOS
  | none => false

/-- Whether a `TaskInfo`, when present, carries a `ContainerInfo`
with a type other than MESOS (containerizer.cpp:931-933). -/
def taskNonMesos : Option TaskInfo → Bool
  | some t => nonMesosContainer t.container
  | none => false

/-- Side effects of the launch path that only happen once the
top-level entry has dispatched into the five-argument `launch`
(containerizer.cpp:999-1068): creating the runtime directory,
inserting the container into `containers_`, and invoking the
provisioner / isolators. -/
inductive LaunchEffect where
  | runtimeDirCreated
  | registryInserted
  | collaboratorInvoked
  deriving DecidableEq, Repr

/-- What the top-level launch entry returns. -/
inductive LaunchOutcome where
  | failure (msg : String)
  | returnedFalse
  | proceeded
  deriving DecidableEq, Repr

/-- The entry of the top-level `MesosContainerizerProcess::launch`
(containerizer.cpp:915-996): if the id is already in `containers_`,
return `Failure("Container already started")`; if the `TaskInfo`
carries a `ContainerInfo` of a type other than MESOS, or (next) the
`ExecutorInfo` does, return `false`; otherwise dispatch into the
five-argument `launch`, which performs the effects. Every early
return happens before any effect. -/
def launchEntry (inRegistry : Bool) (taskInfo : Option TaskInfo)
    (executorInfo : ExecutorInfo) : LaunchOutcome × List LaunchEffect :=
  if inRegistry then (.failure "Container already started", [])
  else if taskNonMesos taskInfo then (.returnedFalse, [])
  else if nonMesosContainer executorInfo.container then (.returnedFalse, [])
  else (.proceeded, [.runtimeDirCreated, .registryInserted, .collaboratorInvoked])

/-- The `limited` callback (containerizer.cpp:2311-2336), as a
function of the container's Registry entry (state and accumulated
limitations; `none` when absent) and the watched limitation future.
Returns the limitations list afterwards (`none` when the container
is absent) and whether a destroy of the container was initiated:
 * absent or DESTROYING: early return, a pure no-op;
 * otherwise: if the future is ready its limitation is appended to
   `container->limitations` (a non-ready future only logs), and in
   either case `destroy` is invoked. -/
def limited (reg : Option (CState × List ContainerLimitation))
    (fut : FutureVal ContainerLimitation) :
    Option (List ContainerLimitation) × Bool :=
  match reg with
  | none => (none, false)
  | some (s, lims) =>
    if s = .DESTROYING then (some lims, false)
    else
      match fut with
      | .ready l => (some (lims ++ [l]), true)
      | _ => (some lims, true)

/-! ### Helper lemmas -/

/-- Filtering commutes with reversal. -/
theorem filter_reverse_comm (p : Isolator → Bool) (l : List Isolator) :
    l.reverse.filter p = (l.filter p).reverse := by
  induction l with
  | nil => rfl
  | cons i l ih =>
    by_cases h : p i <;>
      simp [List.reverse_cons, List.filter_append, List.filter_cons, h, ih]

/-- `prepareChain` is an initial segment of the names of the list it
walks: the serial `prepare` chain follows the declared order and
stops at the first failure. -/
theorem prepareChain_initial : ∀ l : List Isolator,
    ∃ rest, l.map Isolator.name = prepareChain l ++ rest
  | [] => ⟨[], rfl⟩
  | i :: l => by
    by_cases h : i.prepareOk
    · obtain ⟨rest, hr⟩ := prepareChain_initial l
      exact ⟨rest, by simp [prepareChain, h, hr]⟩
    · exact ⟨l.map Isolator.name, by simp [prepareChain, h]⟩

/-! ### C1 -/

/-- C1 counterexample: with three isolators `0, 1, 2` (all nesting
aware) where isolator `1`'s `prepare` fails, the `prepare` chain
invokes only isolators `0` and `1`, yet `cleanupIsolators` invokes
`cleanup` on all three — isolator `2`, whose `prepare` was never
attempted, still receives a cleanup call, contradicting the claim
that isolators after the failing one receive no cleanup call. -/
theorem C1_counterexample :
    prepareCalls false
        [⟨0, true, true, true⟩, ⟨1, true, false, true⟩, ⟨2, true, true, true⟩] = [0, 1]
    ∧ cleanupCalls false
        [⟨0, true, true, true⟩, ⟨1, true, false, true⟩, ⟨2, true, true, true⟩] = [2, 1, 0]
    ∧ 2 ∉ prepareCalls false
        [⟨0, true, true, true⟩, ⟨1, true, false, true⟩, ⟨2, true, true, true⟩]
    ∧ 2 ∈ cleanupCalls false
        [⟨0, true, true, true⟩, ⟨1, true, false, true⟩, ⟨2, true, true, true⟩] := by
  decide

/-- C1 (amended): for every destroy, isolator cleanup is invoked
serially in the exact reverse of the declared (applicable) isolator
order used by `prepare`; `prepare` itself is invoked on an initial
segment of that declared order; and inside the destroy chain's
cleanup phase every applicable isolator's cleanup is attempted (the
full reverse-order event list is emitted) even if some cleanups
fail and regardless of which prepares were attempted. -/
theorem C1_cleanup_reverse_order (nested : Bool) (isolators : List Isolator)
    (d : NodeData) :
    cleanupCalls nested isolators = (declaredOrder nested isolators).reverse
    ∧ (∃ rest, declaredOrder nested isolators = prepareCalls nested isolators ++ rest)
    ∧ (∃ tl, (cleanupPhase isolators d).1
        = (cleanupCalls d.nested isolators).map (DEvent.isolatorCleanup d.id) ++ tl) := by
  refine ⟨?_, ?_, ?_⟩
  · simp [cleanupCalls, declaredOrder, applicableIsolators, filter_reverse_comm]
  · exact prepareChain_initial (applicableIsolators nested isolators)
  · by_cases h : (cleanupResults d.nested isolators).any (fun ok => !ok) <;>
      simp [cleanupPhase, h]

/-! ### C4 -/

/-- C4: `destroy` is idempotent: for an id absent from the Registry
it returns `false`, logs the unknown-container warning and changes
no state (no teardown is started); for a container already in
DESTROYING state it does not restart the teardown and returns the
pending termination future mapped to `true`; only for a live,
not-yet-destroying container does it flip the state to DESTROYING
and start the teardown. -/
theorem C4_destroy_idempotent :
    destroyEntry none = ⟨.returnedFalse, true, none, false⟩
    ∧ destroyEntry (some .DESTROYING) =
        ⟨.terminationThenTrue, false, some .DESTROYING, false⟩
    ∧ ∀ s : CState, s ≠ .DESTROYING →
        destroyEntry (some s) = ⟨.terminationThenTrue, false, some .DESTROYING, true⟩ := by
  refine ⟨rfl, rfl, ?_⟩
  intro s hs
  simp [destroyEntry, hs]

/-- C4 witness: the theorem applied at the RUNNING state. -/
theorem C4_witness :
    CState.RUNNING ≠ CState.DESTROYING
    ∧ destroyEntry (some .RUNNING) =
        ⟨.terminationThenTrue, false, some .DESTROYING, true⟩ :=
  ⟨by decide, C4_destroy_idempotent.2.2 CState.RUNNING (by decide)⟩

/-! ### C8 -/

/-- C8: for every reaped container pid, if the runtime directory does
not exist the OS reap result is returned unchanged; if it exists, a
checkpointed `status` file value is preferred (the result does not
depend on the OS reap result at all), and a missing or empty status
file synthesizes an exit-by-SIGKILL status `W_EXITCODE(0, SIGKILL)`. -/
theorem C8_reap_status (checkpointed : CheckpointedStatus) (osStatus : Option Int)
    (s : Int) :
    reapResult false checkpointed osStatus = .ok osStatus
    ∧ reapResult true (.value s) osStatus = .ok (some s)
    ∧ reapResult true .absent osStatus = .ok (some (wExitcode 0 SIGKILL))
    ∧ wExitcode 0 SIGKILL = 9 := by
  refine ⟨?_, rfl, rfl, rfl⟩
  simp [reapResult]

/-! ### C10 -/

/-- C10: a limitation delivered for a container that is absent from
the Registry or already DESTROYING is a no-op — the limitations list
is not extended and no destroy is initiated; otherwise a ready
limitation is appended to the container's limitations list and a
destroy of the container is initiated. -/
theorem C10_limited (fut : FutureVal ContainerLimitation)
    (lims : List ContainerLimitation) (s : CState) (l : ContainerLimitation)
    (hs : s ≠ .DESTROYING) :
    limited none fut = (none, false)
    ∧ limited (some (.DESTROYING, lims)) fut = (some lims, false)
    ∧ limited (some (s, lims)) (.ready l) = (some (lims ++ [l]), true) := by
  refine ⟨rfl, rfl, ?_⟩
  simp [limited, hs]

/-- C10 witness: the theorem applied to a running container with an
empty limitations list and a ready "mem oom" limitation. -/
theorem C10_witness :
    CState.RUNNING ≠ CState.DESTROYING
    ∧ (limited none .pending = (none, false)
      ∧ limited (some (.DESTROYING, [])) .pending = (some [], false)
      ∧ limited (some (.RUNNING, [])) (.ready ⟨"mem oom", some 1⟩) =
          (some ([] ++ [⟨"mem oom", some 1⟩]), true)) :=
  ⟨by decide, C10_limited .pending [] .RUNNING ⟨"mem oom", some 1⟩ (by decide)⟩

/-! ### C9 -/

/-- C9 counterexample: a launch request whose `TaskInfo` carries a
DOCKER-typed `ContainerInfo` but whose ContainerId is already in the
Registry returns `Failure("Container already started")`, not `false`
— the Registry check precedes the container-type checks
(containerizer.cpp:927-935). -/
theorem C9_counterexample :
    (launchEntry true (some ⟨some ⟨.DOCKER⟩⟩) ⟨none⟩).1 ≠ .returnedFalse
    ∧ launchEntry true (some ⟨some ⟨.DOCKER⟩⟩) ⟨none⟩ =
        (.failure "Container already started", []) := by
  decide

/-- C9 (amended): for every top-level launch request whose
ContainerId is not already in the Registry and whose `TaskInfo` or
`ExecutorInfo` carries a `ContainerInfo` with a type other than
MESOS, launch returns `false` (not a failure) with no effects: no
runtime directory is created, the container is not inserted into the
Registry, and no collaborator is invoked. -/
theorem C9_non_mesos_type (taskInfo : Option TaskInfo) (executorInfo : ExecutorInfo)
    (h : taskNonMesos taskInfo = true
      ∨ nonMesosContainer executorInfo.container = true) :
    launchEntry false taskInfo executorInfo = (.returnedFalse, []) := by
  rcases h with h | h
  · simp [launchEntry, h]
  · by_cases ht : taskNonMesos taskInfo <;> simp [launchEntry, h, ht]

/-- C9 witness: the theorem applied to a fresh id with a DOCKER-typed
`ContainerInfo` in the `TaskInfo`. -/
theorem C9_witness :
    (taskNonMesos (some ⟨some ⟨.DOCKER⟩⟩) = true
      ∨ nonMesosContainer (ExecutorInfo.mk none).container = true)
    ∧ launchEntry false (some ⟨some ⟨.DOCKER⟩⟩) ⟨none⟩ = (.returnedFalse, []) :=
  ⟨Or.inl (by decide), C9_non_mesos_type (some ⟨some ⟨.DOCKER⟩⟩) ⟨none⟩ (Or.inl (by decide))⟩

/-! ### C6 -/

/-- C6: the `ContainerTermination` composed at the end of a
successful destroy has its exit status set exactly when the reaped
`status` future is present, ready and holds a value; and when the
accumulated limitations list is non-empty it has task state
TASK_FAILED, message equal to the limitation messages joined by
"; ", and one reason per limitation that has a reason. -/
theorem C6_termination_composition (st : Option (FutureVal (Option Int)))
    (lims : List ContainerLimitation) :
    (∀ c : Int, (composeTermination st lims).status = some c
      ↔ st = some (.ready (some c)))
    ∧ (lims ≠ [] →
        (composeTermination st lims).state = some .TASK_FAILED
        ∧ (composeTermination st lims).message =
            some (String.intercalate "; " (lims.map ContainerLimitation.message))
        ∧ (composeTermination st lims).reasons =
            lims.filterMap ContainerLimitation.reason) := by
  have hst : (composeTermination st lims).status =
      (match st with
       | some (.ready (some c)) => some c
       | _ => none) := by
    simp only [composeTermination]
    split <;> rfl
  constructor
  · intro c
    rw [hst]
    rcases st with _ | fv
    · simp
    · rcases fv with a | m | _
      · rcases a with _ | v <;> simp
      · simp
      · simp
  · intro hne
    have h : lims.isEmpty = false := by
      cases lims with
      | nil => exact absurd rfl hne
      | cons a l => rfl
    simp [composeTermination, h]

/-- C6 witness: the theorem applied to a ready status `some 0` and a
single "mem oom" limitation with reason 1. -/
theorem C6_witness :
    ([⟨"mem oom", some 1⟩] : List ContainerLimitation) ≠ []
    ∧ ((composeTermination (some (.ready (some 0))) [⟨"mem oom", some 1⟩]).state =
          some .TASK_FAILED
      ∧ (composeTermination (some (.ready (some 0))) [⟨"mem oom", some 1⟩]).message =
          some (String.intercalate "; "
            (([⟨"mem oom", some 1⟩] : List ContainerLimitation).map
              ContainerLimitation.message))
      ∧ (composeTermination (some (.ready (some 0))) [⟨"mem oom", some 1⟩]).reasons =
          ([⟨"mem oom", some 1⟩] : List ContainerLimitation).filterMap
            ContainerLimitation.reason) :=
  ⟨by simp,
   (C6_termination_composition (some (.ready (some 0))) [⟨"mem oom", some 1⟩]).2 (by simp)⟩

/-! ### C5 -/

/-- C5: at every launch stage, after every suspension point (after
provisioning, after the isolator prepares, after logger prepare,
after fork, after isolation, after fetch), the resumed continuation
re-checks that the container is still in the Registry and not in
DESTROYING state: a vanished container fails the launch with
`"Container destroyed during <previous stage>"`, a DESTROYING one
with `"Container is being destroyed during <previous stage>"`, and
the stage body (which mutates the container) runs exactly when the
container is present and not DESTROYING. -/
theorem C5_resume_checks :
    ∀ p ∈ launchResumeChecks,
      p.1 none = .error (destroyedDuring p.2)
      ∧ p.1 (some .DESTROYING) = .error (beingDestroyedDuring p.2)
      ∧ ∀ reg : Option CState,
          (p.1 reg).isOk = true ↔ (reg ≠ none ∧ reg ≠ some .DESTROYING) := by
  intro p hp
  simp only [launchResumeChecks, List.mem_cons, List.not_mem_nil, or_false] at hp
  rcases hp with h | h | h | h | h | h <;> subst h <;>
    refine ⟨rfl, rfl, ?_⟩ <;> intro reg <;>
    (rcases reg with _ | s
     · simp [prepareResume, launchResume, loggerResume, isolateResume,
         fetchResume, execResume, Except.isOk, Except.toBool]
     · by_cases hs : s = CState.DESTROYING <;>
         simp [prepareResume, launchResume, loggerResume, isolateResume,
           fetchResume, execResume, Except.isOk, Except.toBool, hs])

/-- C5 witness: the theorem applied to the post-provisioning check. -/
theorem C5_witness :
    (prepareResume, "provisioning") ∈ launchResumeChecks
    ∧ (prepareResume (none : Option CState) = .error (destroyedDuring "provisioning")
      ∧ prepareResume (some .DESTROYING) = .error (beingDestroyedDuring "provisioning")
      ∧ ∀ reg : Option CState,
          (prepareResume reg).isOk = true ↔ (reg ≠ none ∧ reg ≠ some .DESTROYING)) :=
  ⟨by simp [launchResumeChecks],
   C5_resume_checks (prepareResume, "provisioning") (by simp [launchResumeChecks])⟩

/-! ### C7 -/

/-- The FIFO invariant: running any operation list from any state,
the completed tasks followed by the still-pending queue equal the
initial content followed by the new arrivals in arrival order. -/
theorem fifoRun_content (ops : List FifoOp) :
    ∀ s : FifoState,
      (fifoRun s ops).completed ++ (fifoRun s ops).queue
        = s.completed ++ s.queue ++ fifoArrivals ops := by
  induction ops with
  | nil => intro s; simp [fifoRun, fifoArrivals]
  | cons op ops ih =>
    intro s
    have hrun : fifoRun s (op :: ops) = fifoRun (fifoStep s op) ops := rfl
    rcases op with id | _
    · rw [hrun, ih]
      simp [fifoStep, fifoArrivals, List.filterMap_cons]
    · rw [hrun, ih]
      rcases hq : s.queue with _ | ⟨t, rest⟩ <;>
        simp [fifoStep, hq, fifoArrivals, List.filterMap_cons]

/-- C7: concurrent `status` requests for the same container are
serialized through the container's per-id FIFO in arrival order:
running any sequence of enqueue (`sequence.add`, as performed by
`status`) and completion steps from the empty FIFO, the completed
requests followed by the still-pending ones are exactly the requests
in arrival order — so results are observed in request order. -/
theorem C7_status_fifo_order (ops : List FifoOp) :
    (fifoRun ⟨[], []⟩ ops).completed ++ (fifoRun ⟨[], []⟩ ops).queue
      = fifoArrivals ops := by
  have h := fifoRun_content ops ⟨[], []⟩
  simpa using h

/-! ### C2 helper lemmas -/

/-- Every event of the provisioner phase concerns the container. -/
theorem provisionerPhase_eid (d : NodeData) :
    ∀ e ∈ (provisionerPhase d).1, DEvent.eid e = d.id := by
  intro e he
  by_cases h : d.provisionerOk <;> simp [provisionerPhase, h] at he <;>
    rcases he with rfl | rfl | rfl <;> rfl

/-- Every event of the cleanup phase concerns the container. -/
theorem cleanupPhase_eid (isolators : List Isolator) (d : NodeData) :
    ∀ e ∈ (cleanupPhase isolators d).1, DEvent.eid e = d.id := by
  intro e he
  by_cases h : (cleanupResults d.nested isolators).any (fun ok => !ok)
  · simp [cleanupPhase, h] at he
    rcases he with ⟨n, _, rfl⟩ | rfl | rfl <;> rfl
  · simp [cleanupPhase, h] at he
    rcases he with ⟨n, _, rfl⟩ | hmem
    · rfl
    · exact provisionerPhase_eid d e hmem

/-- Every event of the launcher phase concerns the container. -/
theorem launcherPhase_eid (isolators : List Isolator) (d : NodeData) :
    ∀ e ∈ (launcherPhase isolators d).1, DEvent.eid e = d.id := by
  intro e he
  by_cases h : d.launcherOk
  · simp [launcherPhase, h] at he
    rcases he with rfl | rfl | hmem
    · rfl
    · rfl
    · exact cleanupPhase_eid isolators d e hmem
  · simp [launcherPhase, h] at he
    rcases he with rfl | rfl | rfl <;> rfl

/-- Every event of the stage-dependent unwind concerns the container. -/
theorem parentUnwind_eid (isolators : List Isolator) (d : NodeData) :
    ∀ e ∈ (parentUnwind isolators d).1, DEvent.eid e = d.id := by
  intro e he
  cases hp : d.prev <;> simp [parentUnwind, hp] at he
  · rcases he with rfl | hmem
    · rfl
    · exact provisionerPhase_eid d e hmem
  · rcases he with rfl | hmem
    · rfl
    · exact cleanupPhase_eid isolators d e hmem
  · rcases he with rfl | hmem
    · rfl
    · exact launcherPhase_eid isolators d e hmem
  · rcases he with rfl | hmem
    · rfl
    · exact launcherPhase_eid isolators d e hmem
  · exact launcherPhase_eid isolators d e he

/-- Every event of the parent's own part of a destroy concerns the
container. -/
theorem destroyTail_eid (isolators : List Isolator) (d : NodeData)
    (rs : List (List DEvent × Bool)) :
    ∀ e ∈ (destroyTail isolators d rs).1, DEvent.eid e = d.id := by
  intro e he
  by_cases h : rs.any (fun r => !r.2)
  · simp [destroyTail, h] at he
    rcases he with rfl | rfl <;> rfl
  · simp [destroyTail, h] at he
    exact parentUnwind_eid isolators d e he

mutual

/-- Every event of a destroy trace concerns an id of the tree. -/
theorem destroyTrace_eid (isolators : List Isolator) :
    (t : CTree) → ∀ e ∈ (destroyTrace isolators t).1, DEvent.eid e ∈ treeIds t
  | .node d cs => by
    intro e he
    simp only [destroyTrace] at he
    rw [List.mem_append] at he
    rcases he with hc | ht
    · rw [List.mem_flatten] at hc
      obtain ⟨l, hl, hel⟩ := hc
      rw [List.mem_map] at hl
      obtain ⟨r, hr, rfl⟩ := hl
      have hmem := destroyTraceList_eid isolators cs r hr e hel
      simp only [treeIds, List.mem_cons]
      exact Or.inr hmem
    · have heq := destroyTail_eid isolators d _ e ht
      simp only [treeIds, List.mem_cons]
      exact Or.inl heq

/-- Every event of the destroys of a list of trees concerns an id of
one of the trees. -/
theorem destroyTraceList_eid (isolators : List Isolator) :
    (ts : List CTree) → ∀ r ∈ destroyTraceList isolators ts, ∀ e ∈ r.1,
      DEvent.eid e ∈ (treeIdsList ts).flatten
  | [] => by
    intro r hr
    simp [destroyTraceList] at hr
  | t :: ts => by
    intro r hr e he
    simp only [destroyTraceList, List.mem_cons] at hr
    simp only [treeIdsList, List.flatten_cons, List.mem_append]
    rcases hr with rfl | hr
    · exact Or.inl (destroyTrace_eid isolators t e he)
    · exact Or.inr (destroyTraceList_eid isolators ts r hr e he)

end

/-- `destroyTraceList` is the map of `destroyTrace` over the children. -/
theorem destroyTraceList_eq_map (isolators : List Isolator) :
    (ts : List CTree) → destroyTraceList isolators ts = ts.map (destroyTrace isolators)
  | [] => rfl
  | t :: ts => by
    simp [destroyTraceList, destroyTraceList_eq_map isolators ts]

/-- A childless container's destroy is exactly the stage-dependent
unwind. -/
theorem destroyTrace_leaf (isolators : List Isolator) (d : NodeData) :
    destroyTrace isolators (CTree.node d []) = parentUnwind isolators d := by
  simp [destroyTrace, destroyTraceList, destroyTail]

/-! ### C2 -/

/-- C2: for every container with children, destroy recursively
destroys every child (the trace opens with the complete destroy
traces of all children, which are the recursive `destroyTrace` of
each child) and only after all of them does any of the parent's own
teardown appear: no event of the child part concerns the parent's
id, and every event of the remaining part — the stage-dependent
unwind, launcher destroy, isolator cleanup and provisioner destroy —
concerns exactly the parent. -/
theorem C2_children_destroyed_first (isolators : List Isolator) (d : NodeData)
    (cs : List CTree) (h : d.id ∉ (treeIdsList cs).flatten) :
    ∃ parentPart,
      (destroyTrace isolators (CTree.node d cs)).1
        = ((destroyTraceList isolators cs).map Prod.fst).flatten ++ parentPart
      ∧ destroyTraceList isolators cs = cs.map (destroyTrace isolators)
      ∧ (∀ e ∈ ((destroyTraceList isolators cs).map Prod.fst).flatten,
          DEvent.eid e ≠ d.id)
      ∧ (∀ e ∈ parentPart, DEvent.eid e = d.id) := by
  refine ⟨(destroyTail isolators d (destroyTraceList isolators cs)).1, ?_,
    destroyTraceList_eq_map isolators cs, ?_, ?_⟩
  · simp [destroyTrace]
  · intro e he
    rw [List.mem_flatten] at he
    obtain ⟨l, hl, hel⟩ := he
    rw [List.mem_map] at hl
    obtain ⟨r, hr, rfl⟩ := hl
    have hmem := destroyTraceList_eid isolators cs r hr e hel
    intro heq
    rw [heq] at hmem
    exact h hmem
  · exact destroyTail_eid isolators d _

/-! ### C3 helper lemmas -/

/-- The launcher phase when `launcher->destroy` fails. -/
theorem launcherPhase_fail_eq (isolators : List Isolator) (d : NodeData)
    (h : d.launcherOk = false) :
    launcherPhase isolators d =
      ([.launcherDestroy d.id, .terminationFailed d.id, .metricIncremented d.id],
       false) := by
  simp [launcherPhase, h]

/-- The launcher phase when `launcher->destroy` succeeds. -/
theorem launcherPhase_ok_eq (isolators : List Isolator) (d : NodeData)
    (h : d.launcherOk = true) :
    launcherPhase isolators d =
      ([DEvent.launcherDestroy d.id, DEvent.awaitStatus d.id]
         ++ (cleanupPhase isolators d).1,
       (cleanupPhase isolators d).2) := by
  simp [launcherPhase, h]

/-- The cleanup phase when some isolator cleanup fails. -/
theorem cleanupPhase_fail_eq (isolators : List Isolator) (d : NodeData)
    (h : (cleanupResults d.nested isolators).any (fun ok => !ok) = true) :
    cleanupPhase isolators d =
      ((cleanupCalls d.nested isolators).map (DEvent.isolatorCleanup d.id)
         ++ [.terminationFailed d.id, .metricIncremented d.id],
       false) := by
  simp [cleanupPhase, h]

/-- The cleanup phase when every isolator cleanup succeeds. -/
theorem cleanupPhase_ok_eq (isolators : List Isolator) (d : NodeData)
    (h : (cleanupResults d.nested isolators).any (fun ok => !ok) = false) :
    cleanupPhase isolators d =
      ((cleanupCalls d.nested isolators).map (DEvent.isolatorCleanup d.id)
         ++ (provisionerPhase d).1,
       (provisionerPhase d).2) := by
  simp [cleanupPhase, h]

/-- The provisioner phase when `provisioner->destroy` fails. -/
theorem provisionerPhase_fail_eq (d : NodeData) (h : d.provisionerOk = false) :
    provisionerPhase d =
      ([.provisionerDestroy d.id, .terminationFailed d.id, .metricIncremented d.id],
       false) := by
  simp [provisionerPhase, h]

/-- Launcher-destroy failure: the unwind ends at the failed
termination and the metric bump; no isolator cleanup, no provisioner
destroy, no termination value, no Registry removal. -/
theorem destroy_launcher_fail (isolators : List Isolator) (d : NodeData)
    (hmem : DEvent.launcherDestroy d.id ∈ (parentUnwind isolators d).1)
    (hfail : d.launcherOk = false) :
    (∃ pre, (parentUnwind isolators d).1
        = pre ++ [DEvent.terminationFailed d.id, DEvent.metricIncremented d.id])
    ∧ DEvent.terminationSet d.id ∉ (parentUnwind isolators d).1
    ∧ DEvent.registryErased d.id ∉ (parentUnwind isolators d).1
    ∧ (∀ n, DEvent.isolatorCleanup d.id n ∉ (parentUnwind isolators d).1)
    ∧ DEvent.provisionerDestroy d.id ∉ (parentUnwind isolators d).1
    ∧ (parentUnwind isolators d).2 = false := by
  cases hprev : d.prev
  case provisioning =>
    exfalso
    by_cases hp : d.provisionerOk <;>
      simp [parentUnwind, hprev, provisionerPhase, hp] at hmem
  case preparing =>
    exfalso
    by_cases hc : (cleanupResults d.nested isolators).any (fun ok => !ok) <;>
      by_cases hp : d.provisionerOk <;>
        simp [parentUnwind, hprev, cleanupPhase, provisionerPhase, hc, hp] at hmem
  case isolating =>
    have hlp := launcherPhase_fail_eq isolators d hfail
    refine ⟨⟨[DEvent.awaitIsolation d.id, DEvent.launcherDestroy d.id], ?_⟩,
      ?_, ?_, fun n => ?_, ?_, ?_⟩ <;> simp [parentUnwind, hprev, hlp]
  case fetching =>
    have hlp := launcherPhase_fail_eq isolators d hfail
    refine ⟨⟨[DEvent.fetcherKill d.id, DEvent.launcherDestroy d.id], ?_⟩,
      ?_, ?_, fun n => ?_, ?_, ?_⟩ <;> simp [parentUnwind, hprev, hlp]
  case running =>
    have hlp := launcherPhase_fail_eq isolators d hfail
    refine ⟨⟨[DEvent.launcherDestroy d.id], ?_⟩,
      ?_, ?_, fun n => ?_, ?_, ?_⟩ <;> simp [parentUnwind, hprev, hlp]

/-- Isolator-cleanup failure: every cleanup is still attempted, then
the unwind ends at the failed termination and the metric bump; no
provisioner destroy, no termination value, no Registry removal. -/
theorem destroy_cleanup_fail (isolators : List Isolator) (d : NodeData)
    (hmem : ∃ n, DEvent.isolatorCleanup d.id n ∈ (parentUnwind isolators d).1)
    (hany : (cleanupResults d.nested isolators).any (fun ok => !ok) = true) :
    (∃ pre, (parentUnwind isolators d).1
        = pre ++ [DEvent.terminationFailed d.id, DEvent.metricIncremented d.id])
    ∧ DEvent.terminationSet d.id ∉ (parentUnwind isolators d).1
    ∧ DEvent.registryErased d.id ∉ (parentUnwind isolators d).1
    ∧ DEvent.provisionerDestroy d.id ∉ (parentUnwind isolators d).1
    ∧ (parentUnwind isolators d).2 = false := by
  obtain ⟨m, hm⟩ := hmem
  cases hprev : d.prev
  case provisioning =>
    exfalso
    by_cases hp : d.provisionerOk <;>
      simp [parentUnwind, hprev, provisionerPhase, hp] at hm
  case preparing =>
    have hcp := cleanupPhase_fail_eq isolators d hany
    refine ⟨⟨DEvent.awaitPrepare d.id ::
        (cleanupCalls d.nested isolators).map (DEvent.isolatorCleanup d.id), ?_⟩,
      ?_, ?_, ?_, ?_⟩ <;> simp [parentUnwind, hprev, hcp]
  case isolating =>
    rcases hl : d.launcherOk with _ | _
    · exfalso
      simp [parentUnwind, hprev, launcherPhase_fail_eq isolators d hl] at hm
    · have hlp := launcherPhase_ok_eq isolators d hl
      have hcp := cleanupPhase_fail_eq isolators d hany
      refine ⟨⟨[DEvent.awaitIsolation d.id, DEvent.launcherDestroy d.id,
          DEvent.awaitStatus d.id]
          ++ (cleanupCalls d.nested isolators).map (DEvent.isolatorCleanup d.id), ?_⟩,
        ?_, ?_, ?_, ?_⟩ <;> simp [parentUnwind, hprev, hlp, hcp]
  case fetching =>
    rcases hl : d.launcherOk with _ | _
    · exfalso
      simp [parentUnwind, hprev, launcherPhase_fail_eq isolators d hl] at hm
    · have hlp := launcherPhase_ok_eq isolators d hl
      have hcp := cleanupPhase_fail_eq isolators d hany
      refine ⟨⟨[DEvent.fetcherKill d.id, DEvent.launcherDestroy d.id,
          DEvent.awaitStatus d.id]
          ++ (cleanupCalls d.nested isolators).map (DEvent.isolatorCleanup d.id), ?_⟩,
        ?_, ?_, ?_, ?_⟩ <;> simp [parentUnwind, hprev, hlp, hcp]
  case running =>
    rcases hl : d.launcherOk with _ | _
    · exfalso
      simp [parentUnwind, hprev, launcherPhase_fail_eq isolators d hl] at hm
    · have hlp := launcherPhase_ok_eq isolators d hl
      have hcp := cleanupPhase_fail_eq isolators d hany
      refine ⟨⟨[DEvent.launcherDestroy d.id, DEvent.awaitStatus d.id]
          ++ (cleanupCalls d.nested isolators).map (DEvent.isolatorCleanup d.id), ?_⟩,
        ?_, ?_, ?_, ?_⟩ <;> simp [parentUnwind, hprev, hlp, hcp]

/-- Provisioner-destroy failure: the unwind ends at the failed
termination and the metric bump; no termination value, no Registry
removal. -/
theorem destroy_provisioner_fail (isolators : List Isolator) (d : NodeData)
    (hmem : DEvent.provisionerDestroy d.id ∈ (parentUnwind isolators d).1)
    (hfail : d.provisionerOk = false) :
    (∃ pre, (parentUnwind isolators d).1
        = pre ++ [DEvent.terminationFailed d.id, DEvent.metricIncremented d.id])
    ∧ DEvent.terminationSet d.id ∉ (parentUnwind isolators d).1
    ∧ DEvent.registryErased d.id ∉ (parentUnwind isolators d).1
    ∧ (parentUnwind isolators d).2 = false := by
  have hpp := provisionerPhase_fail_eq d hfail
  cases hprev : d.prev
  case provisioning =>
    refine ⟨⟨[DEvent.awaitProvisioning d.id, DEvent.provisionerDestroy d.id], ?_⟩,
      ?_, ?_, ?_⟩ <;> simp [parentUnwind, hprev, hpp]
  case preparing =>
    rcases hc : (cleanupResults d.nested isolators).any (fun ok => !ok) with _ | _
    · have hcp := cleanupPhase_ok_eq isolators d hc
      refine ⟨⟨DEvent.awaitPrepare d.id ::
          ((cleanupCalls d.nested isolators).map (DEvent.isolatorCleanup d.id)
            ++ [DEvent.provisionerDestroy d.id]), ?_⟩,
        ?_, ?_, ?_⟩ <;> simp [parentUnwind, hprev, hcp, hpp]
    · exfalso
      simp [parentUnwind, hprev, cleanupPhase_fail_eq isolators d hc] at hmem
  case isolating =>
    rcases hl : d.launcherOk with _ | _
    · exfalso
      simp [parentUnwind, hprev, launcherPhase_fail_eq isolators d hl] at hmem
    · have hlp := launcherPhase_ok_eq isolators d hl
      rcases hc : (cleanupResults d.nested isolators).any (fun ok => !ok) with _ | _
      · have hcp := cleanupPhase_ok_eq isolators d hc
        refine ⟨⟨[DEvent.awaitIsolation d.id, DEvent.launcherDestroy d.id,
            DEvent.awaitStatus d.id]
            ++ ((cleanupCalls d.nested isolators).map (DEvent.isolatorCleanup d.id)
              ++ [DEvent.provisionerDestroy d.id]), ?_⟩,
          ?_, ?_, ?_⟩ <;> simp [parentUnwind, hprev, hlp, hcp, hpp]
      · exfalso
        simp [parentUnwind, hprev, hlp,
          cleanupPhase_fail_eq isolators d hc] at hmem
  case fetching =>
    rcases hl : d.launcherOk with _ | _
    · exfalso
      simp [parentUnwind, hprev, launcherPhase_fail_eq isolators d hl] at hmem
    · have hlp := launcherPhase_ok_eq isolators d hl
      rcases hc : (cleanupResults d.nested isolators).any (fun ok => !ok) with _ | _
      · have hcp := cleanupPhase_ok_eq isolators d hc
        refine ⟨⟨[DEvent.fetcherKill d.id, DEvent.launcherDestroy d.id,
            DEvent.awaitStatus d.id]
            ++ ((cleanupCalls d.nested isolators).map (DEvent.isolatorCleanup d.id)
              ++ [DEvent.provisionerDestroy d.id]), ?_⟩,
          ?_, ?_, ?_⟩ <;> simp [parentUnwind, hprev, hlp, hcp, hpp]
      · exfalso
        simp [parentUnwind, hprev, hlp,
          cleanupPhase_fail_eq isolators d hc] at hmem
  case running =>
    rcases hl : d.launcherOk with _ | _
    · exfalso
      simp [parentUnwind, hprev, launcherPhase_fail_eq isolators d hl] at hmem
    · have hlp := launcherPhase_ok_eq isolators d hl
      rcases hc : (cleanupResults d.nested isolators).any (fun ok => !ok) with _ | _
      · have hcp := cleanupPhase_ok_eq isolators d hc
        refine ⟨⟨[DEvent.launcherDestroy d.id, DEvent.awaitStatus d.id]
            ++ ((cleanupCalls d.nested isolators).map (DEvent.isolatorCleanup d.id)
              ++ [DEvent.provisionerDestroy d.id]), ?_⟩,
          ?_, ?_, ?_⟩ <;> simp [parentUnwind, hprev, hlp, hcp, hpp]
      · exfalso
        simp [parentUnwind, hprev, hlp,
          cleanupPhase_fail_eq isolators d hc] at hmem

/-! ### C3 -/

/-- C3: whenever `launcher->destroy`, any isolator cleanup, or
`provisioner->destroy` is invoked during a destroy and fails, the
destroy trace ends at the failed termination and the destroy-error
metric increment: the termination is failed and never fulfilled with
a value (`terminationSet` never occurs), the metric is incremented,
the sequence stops (no later stage event occurs), and the container
is never removed from the Registry (`registryErased` never occurs).
Invocation of each collaborator is expressed as its event occurring
in the trace; its failure as the corresponding outcome flag. -/
theorem C3_destroy_failure (isolators : List Isolator) (d : NodeData) :
    (DEvent.launcherDestroy d.id ∈ (destroyTrace isolators (CTree.node d [])).1 →
     d.launcherOk = false →
      (∃ pre, (destroyTrace isolators (CTree.node d [])).1
          = pre ++ [DEvent.terminationFailed d.id, DEvent.metricIncremented d.id])
      ∧ DEvent.terminationSet d.id ∉ (destroyTrace isolators (CTree.node d [])).1
      ∧ DEvent.registryErased d.id ∉ (destroyTrace isolators (CTree.node d [])).1
      ∧ (∀ n, DEvent.isolatorCleanup d.id n ∉
          (destroyTrace isolators (CTree.node d [])).1)
      ∧ DEvent.provisionerDestroy d.id ∉ (destroyTrace isolators (CTree.node d [])).1
      ∧ (destroyTrace isolators (CTree.node d [])).2 = false)
    ∧ ((∃ n, DEvent.isolatorCleanup d.id n ∈
          (destroyTrace isolators (CTree.node d [])).1) →
       (cleanupResults d.nested isolators).any (fun ok => !ok) = true →
      (∃ pre, (destroyTrace isolators (CTree.node d [])).1
          = pre ++ [DEvent.terminationFailed d.id, DEvent.metricIncremented d.id])
      ∧ DEvent.terminationSet d.id ∉ (destroyTrace isolators (CTree.node d [])).1
      ∧ DEvent.registryErased d.id ∉ (destroyTrace isolators (CTree.node d [])).1
      ∧ DEvent.provisionerDestroy d.id ∉ (destroyTrace isolators (CTree.node d [])).1
      ∧ (destroyTrace isolators (CTree.node d [])).2 = false)
    ∧ (DEvent.provisionerDestroy d.id ∈ (destroyTrace isolators (CTree.node d [])).1 →
       d.provisionerOk = false →
      (∃ pre, (destroyTrace isolators (CTree.node d [])).1
          = pre ++ [DEvent.terminationFailed d.id, DEvent.metricIncremented d.id])
      ∧ DEvent.terminationSet d.id ∉ (destroyTrace isolators (CTree.node d [])).1
      ∧ DEvent.registryErased d.id ∉ (destroyTrace isolators (CTree.node d [])).1
      ∧ (destroyTrace isolators (CTree.node d [])).2 = false) := by
  rw [destroyTrace_leaf isolators d]
  exact ⟨destroy_launcher_fail isolators d,
         destroy_cleanup_fail isolators d,
         destroy_provisioner_fail isolators d⟩

/-- C3 witness: the theorem applied to three concrete destroys — a
RUNNING container whose launcher destroy fails, a RUNNING container
whose single isolator's cleanup fails, and a PROVISIONING container
whose provisioner destroy fails. -/
theorem C3_witness :
    ((∃ pre, (destroyTrace [⟨0, true, true, false⟩]
          (CTree.node ⟨3, .running, false, false, true⟩ [])).1
        = pre ++ [DEvent.terminationFailed 3, DEvent.metricIncremented 3])
      ∧ DEvent.terminationSet 3 ∉ (destroyTrace [⟨0, true, true, false⟩]
          (CTree.node ⟨3, .running, false, false, true⟩ [])).1
      ∧ DEvent.registryErased 3 ∉ (destroyTrace [⟨0, true, true, false⟩]
          (CTree.node ⟨3, .running, false, false, true⟩ [])).1
      ∧ (∀ n, DEvent.isolatorCleanup 3 n ∉ (destroyTrace [⟨0, true, true, false⟩]
          (CTree.node ⟨3, .running, false, false, true⟩ [])).1)
      ∧ DEvent.provisionerDestroy 3 ∉ (destroyTrace [⟨0, true, true, false⟩]
          (CTree.node ⟨3, .running, false, false, true⟩ [])).1
      ∧ (destroyTrace [⟨0, true, true, false⟩]
          (CTree.node ⟨3, .running, false, false, true⟩ [])).2 = false)
    ∧ ((∃ pre, (destroyTrace [⟨0, true, true, false⟩]
          (CTree.node ⟨4, .running, false, true, true⟩ [])).1
        = pre ++ [DEvent.terminationFailed 4, DEvent.metricIncremented 4])
      ∧ DEvent.terminationSet 4 ∉ (destroyTrace [⟨0, true, true, false⟩]
          (CTree.node ⟨4, .running, false, true, true⟩ [])).1
      ∧ DEvent.registryErased 4 ∉ (destroyTrace [⟨0, true, true, false⟩]
          (CTree.node ⟨4, .running, false, true, true⟩ [])).1
      ∧ DEvent.provisionerDestroy 4 ∉ (destroyTrace [⟨0, true, true, false⟩]
          (CTree.node ⟨4, .running, false, true, true⟩ [])).1
      ∧ (destroyTrace [⟨0, true, true, false⟩]
          (CTree.node ⟨4, .running, false, true, true⟩ [])).2 = false)
    ∧ ((∃ pre, (destroyTrace [⟨0, true, true, false⟩]
          (CTree.node ⟨5, .provisioning, false, true, false⟩ [])).1
        = pre ++ [DEvent.terminationFailed 5, DEvent.metricIncremented 5])
      ∧ DEvent.terminationSet 5 ∉ (destroyTrace [⟨0, true, true, false⟩]
          (CTree.node ⟨5, .provisioning, false, true, false⟩ [])).1
      ∧ DEvent.registryErased 5 ∉ (destroyTrace [⟨0, true, true, false⟩]
          (CTree.node ⟨5, .provisioning, false, true, false⟩ [])).1
      ∧ (destroyTrace [⟨0, true, true, false⟩]
          (CTree.node ⟨5, .provisioning, false, true, false⟩ [])).2 = false) :=
  ⟨(C3_destroy_failure [⟨0, true, true, false⟩]
      ⟨3, .running, false, false, true⟩).1 (by decide) (by decide),
   (C3_destroy_failure [⟨0, true, true, false⟩]
      ⟨4, .running, false, true, true⟩).2.1 ⟨0, by decide⟩ (by decide),
   (C3_destroy_failure [⟨0, true, true, false⟩]
      ⟨5, .provisioning, false, true, false⟩).2.2 (by decide) (by decide)⟩

/-- C2 witness: the theorem applied to a parent container `0` in
RUNNING state with two children `1` and `2`. -/
theorem C2_witness :
    ((0 : Nat) ∉ (treeIdsList
        [CTree.node ⟨1, .running, false, true, true⟩ [],
         CTree.node ⟨2, .running, false, true, true⟩ []]).flatten)
    ∧ ∃ parentPart,
        (destroyTrace [⟨7, true, true, true⟩]
            (CTree.node ⟨0, .running, false, true, true⟩
              [CTree.node ⟨1, .running, false, true, true⟩ [],
               CTree.node ⟨2, .running, false, true, true⟩ []])).1
          = ((destroyTraceList [⟨7, true, true, true⟩]
              [CTree.node ⟨1, .running, false, true, true⟩ [],
               CTree.node ⟨2, .running, false, true, true⟩ []]).map Prod.fst).flatten
            ++ parentPart
        ∧ destroyTraceList [⟨7, true, true, true⟩]
            [CTree.node ⟨1, .running, false, true, true⟩ [],
             CTree.node ⟨2, .running, false, true, true⟩ []]
          = [CTree.node ⟨1, .running, false, true, true⟩ [],
             CTree.node ⟨2, .running, false, true, true⟩ []].map
              (destroyTrace [⟨7, true, true, true⟩])
        ∧ (∀ e ∈ ((destroyTraceList [⟨7, true, true, true⟩]
              [CTree.node ⟨1, .running, false, true, true⟩ [],
               CTree.node ⟨2, .running, false, true, true⟩ []]).map Prod.fst).flatten,
            DEvent.eid e ≠ 0)
        ∧ (∀ e ∈ parentPart, DEvent.eid e = 0) :=
  ⟨by decide,
   C2_children_destroyed_first [⟨7, true, true, true⟩]
     ⟨0, .running, false, true, true⟩
     [CTree.node ⟨1, .running, false, true, true⟩ [],
      CTree.node ⟨2, .running, false, true, true⟩ []] (by decide)⟩
